import Mathlib

/-!
Shallow embedding of the authenticated packet protocol and identity-format
registry of the py-ipv8 trust layer (sources: `ipv8/lazy_community.py` and
`ipv8/attestation/identity_formats.py`).

Python byte strings are modelled as lists of byte values (`List Nat`); the
external collaborators (wire serializer, the two signature backends, key
deserialization, the rust bundler) are abstract parameters collected in an
environment structure, so every theorem quantifies over their behaviour.
-/

set_option autoImplicit false

namespace IPv8

/-- Python byte strings, as lists of byte values. -/
abbrev Bytes := List Nat

/-- Network addresses `(host, port)` handed to dispatch wrappers. -/
abbrev Address := String × Nat

/-- The `BinMemberAuthenticationPayload` auth header: it carries the signer's
serialized public key (`public_key_bin`). -/
structure AuthHeader where
  public_key_bin : Bytes
deriving DecidableEq

/-- The `Peer(public_key_bin, source_address)` construction performed by the
dispatch wrappers; `Peer` itself is an external collaborator, so only the
constructor arguments are modelled. -/
structure Peer where
  public_key_bin : Bytes
  address : Address
deriving DecidableEq

/-- The sender key held by `self.my_peer.key` in `_ez_pack`.  The source
dispatches on `type(key) == LibNaCLSK` (exact type equality), so the model
distinguishes a key of exactly type `LibNaCLSK` (with its `key.seed` and
`veri.vk` fields), a key of a proper subclass of `LibNaCLSK`, and any other
key. -/
inductive SenderKey where
  | libNaCLSK (seedBytes : Bytes) (vkBytes : Bytes)
  | libNaCLSKSub (seedBytes : Bytes) (vkBytes : Bytes)
  | other (bin : Bytes)
deriving DecidableEq

/-- The Python check `type(key) == LibNaCLSK`: true only for exactly
`LibNaCLSK`, false for proper subclasses and unrelated key types. -/
def isExactlyLibNaCLSK : SenderKey → Bool
  | .libNaCLSK _ _ => true
  | _ => false

/-- The `key.key.seed` field read in the accelerated signing branch. -/
def SenderKey.seed : SenderKey → Bytes
  | .libNaCLSK s _ => s
  | .libNaCLSKSub s _ => s
  | .other _ => []

/-- The `key.veri.vk` field read in the accelerated signing branch. -/
def SenderKey.vk : SenderKey → Bytes
  | .libNaCLSK _ v => v
  | .libNaCLSKSub _ v => v
  | .other _ => []

/-- The environment of external collaborators consumed by
`lazy_community.py`: the wire serializer, the default crypto backend
(`default_eccrypto`), the rust bundler's verification entry point, and the
payload-to-pack-list conversions.  Type parameters: `PC` payload classes,
`P` payload objects, `K` deserialized public keys, `F` pack lists. -/
structure Env (PC P K F : Type) where
  globalTimeClass : PC
  unpackAuth : Bytes → Option (AuthHeader × Bytes)
  ezUnpackSerializables : List PC → Bytes → Option (List P)
  borrowedVerify : Bytes → Bytes → Bool × Bytes
  keyFromPublicBin : Bytes → K
  getSignatureLength : K → Nat
  isValidSignature : K → Bytes → Bytes → Bool
  packMultiple : F → Bytes
  toPackList : P → F
  authToPackList : Bytes → F
  keyToBin : SenderKey → Bytes
  createSignature : SenderKey → Bytes → Nat → Bytes
  acceleratedSign : Bytes → Bytes → Bytes → Nat → Bytes

/-- The marker bytes `b"LibNaCLPK:"` tested by `_verify_signature`. -/
def libNaCLMarker : Bytes := [76, 105, 98, 78, 97, 67, 76, 80, 75, 58]

/-- Python `s.startswith(p)` on byte strings. -/
def bytesStartsWith (s p : Bytes) : Bool := decide (s.take p.length = p)

/-- Python slice `data[start:-n]` (note `-0` is `0`, so `n = 0` yields the
empty slice). -/
def sliceToNegEnd (data : Bytes) (start n : Nat) : Bytes :=
  if n = 0 then [] else (data.take (data.length - n)).drop start

/-- Python slice `data[-n:]` (note `-0` is `0`, so `n = 0` yields all of
`data`). -/
def sliceLast (data : Bytes) (n : Nat) : Bytes :=
  if n = 0 then data else data.drop (data.length - n)

/-- Python slice `data[:-n]` (note `-0` is `0`, so `n = 0` yields the empty
slice). -/
def sliceDropLast (data : Bytes) (n : Nat) : Bytes :=
  if n = 0 then [] else data.take (data.length - n)

/-- The fallback (default backend) branch of
`EZPackOverlay._verify_signature`: deserialize the public key with
`default_eccrypto`, compute its signature length, slice the remainder
`data[23 + 2 + len(public_key_bin):-signature_length]` and the trailing
signature, and check the signature over `data[:-signature_length]`. -/
def defaultVerify {PC P K F : Type} (env : Env PC P K F) (auth : AuthHeader)
    (data : Bytes) : Bool × Bytes :=
  let publicKey := env.keyFromPublicBin auth.public_key_bin
  let signatureLength := env.getSignatureLength publicKey
  let remainder := sliceToNegEnd data (23 + 2 + auth.public_key_bin.length) signatureLength
  let signature := sliceLast data signatureLength
  (env.isValidSignature publicKey (sliceDropLast data signatureLength) signature, remainder)

/-- `EZPackOverlay._verify_signature(auth, data)`: if `public_key_bin`
starts with the `LibNaCLPK:` marker the rust (accelerated) verifier is
called on the whole packet; otherwise the default backend branch runs. -/
def verifySignature {PC P K F : Type} (env : Env PC P K F) (auth : AuthHeader)
    (data : Bytes) : Bool × Bytes :=
  if bytesStartsWith auth.public_key_bin libNaCLMarker then
    env.borrowedVerify auth.public_key_bin data
  else
    defaultVerify env auth data

/-- The two verifying backends `_verify_signature` can select. -/
inductive Backend where
  | accelerated
  | default
deriving DecidableEq

/-- Which backend the branch condition of `_verify_signature` selects for a
given auth header (the condition is the marker test on `public_key_bin`). -/
def verifyBackendChoice (auth : AuthHeader) : Backend :=
  if bytesStartsWith auth.public_key_bin libNaCLMarker then .accelerated else .default

/-- The decoding stage at which a `PacketDecodingError` arises. -/
inductive DecodeStage where
  | authUnpack
  | payloadUnpack
  | invalidSignature
deriving DecidableEq

/-- Python exceptions raised by the unpack paths: `PacketDecodingError`
(signature invalid, or a serializer shape mismatch, per the error taxonomy),
`ValueError` (tuple destructuring of the wrong arity) and `IndexError`
(indexing an empty result list). -/
inductive PyError where
  | packetDecodingError (stage : DecodeStage)
  | valueError
  | indexError
deriving DecidableEq

/-- The single invocation of a handler wrapped by `lazy_wrapper`: the
constructed `Peer` followed by the decoded payloads in declared order. -/
structure HandlerCall (P : Type) where
  peer : Peer
  args : List P

/-- The single invocation of a handler wrapped by `lazy_wrapper_wd`: as for
`lazy_wrapper`, plus the original raw data as the final argument. -/
structure HandlerCallWd (P : Type) where
  peer : Peer
  args : List P
  rawData : Bytes

/-- The wrapper produced by `lazy_wrapper(*payloads)` applied to
`(source_address, data)`: unpack the auth header from `data[23:]`, call
`_verify_signature`, deserialize the payloads from the remainder, raise
`PacketDecodingError` when the signature is invalid, and otherwise invoke
the handler once with `Peer(auth.public_key_bin, source_address)` and the
decoded payloads.  An `.ok` result is the (unique) handler call performed;
an `.error` result means the handler was never invoked. -/
def lazyWrapper {PC P K F : Type} (env : Env PC P K F) (payloads : List PC)
    (sourceAddress : Address) (data : Bytes) : Except PyError (HandlerCall P) :=
  match env.unpackAuth (data.drop 23) with
  | none => .error (.packetDecodingError .authUnpack)
  | some (auth, _) =>
    match env.ezUnpackSerializables payloads (verifySignature env auth data).2 with
    | none => .error (.packetDecodingError .payloadUnpack)
    | some unpacked =>
      if (verifySignature env auth data).1 then
        .ok ⟨⟨auth.public_key_bin, sourceAddress⟩, unpacked⟩
      else
        .error (.packetDecodingError .invalidSignature)

/-- The wrapper produced by `lazy_wrapper_wd(*payloads)`: identical control
flow to `lazy_wrapper`, but the handler additionally receives the raw
`data` after the decoded payloads. -/
def lazyWrapperWd {PC P K F : Type} (env : Env PC P K F) (payloads : List PC)
    (sourceAddress : Address) (data : Bytes) : Except PyError (HandlerCallWd P) :=
  match env.unpackAuth (data.drop 23) with
  | none => .error (.packetDecodingError .authUnpack)
  | some (auth, _) =>
    match env.ezUnpackSerializables payloads (verifySignature env auth data).2 with
    | none => .error (.packetDecodingError .payloadUnpack)
    | some unpacked =>
      if (verifySignature env auth data).1 then
        .ok ⟨⟨auth.public_key_bin, sourceAddress⟩, unpacked, data⟩
      else
        .error (.packetDecodingError .invalidSignature)

/-- Observable operations performed by the unpack paths, in program order. -/
inductive TraceEvent where
  | unpackAuthEv
  | verifySignatureEv
  | deserializePayloadsEv
  | raiseErrorEv
  | invokeHandlerEv
  | produceEv
deriving DecidableEq

/-- The sequence of operations performed by the wrappers of `lazy_wrapper`
and `lazy_wrapper_wd` (their control flow is line-for-line identical): auth
unpack, then `_verify_signature`, then the `ez_unpack_serializables` call
that constructs the typed payload objects, and finally either the raise of
the error or the handler invocation. -/
def wrapperTrace {PC P K F : Type} (env : Env PC P K F) (payloads : List PC)
    (data : Bytes) : List TraceEvent :=
  match env.unpackAuth (data.drop 23) with
  | none => [.unpackAuthEv, .raiseErrorEv]
  | some (auth, _) =>
    match env.ezUnpackSerializables payloads (verifySignature env auth data).2 with
    | none => [.unpackAuthEv, .verifySignatureEv, .deserializePayloadsEv, .raiseErrorEv]
    | some _ =>
      if (verifySignature env auth data).1 then
        [.unpackAuthEv, .verifySignatureEv, .deserializePayloadsEv, .invokeHandlerEv]
      else
        [.unpackAuthEv, .verifySignatureEv, .deserializePayloadsEv, .raiseErrorEv]

/-- `EZPackOverlay._ez_unpack_auth(payload_class, data)`: unpack the auth
header, verify, deserialize `[GlobalTimeDistributionPayload, payload_class]`
from the remainder, destructure the two results, and raise on an invalid
signature, else produce `(auth, dist, payload)`. -/
def ezUnpackAuth {PC P K F : Type} (env : Env PC P K F) (payloadClass : PC)
    (data : Bytes) : Except PyError (AuthHeader × P × P) :=
  match env.unpackAuth (data.drop 23) with
  | none => .error (.packetDecodingError .authUnpack)
  | some (auth, _) =>
    match env.ezUnpackSerializables [env.globalTimeClass, payloadClass]
        (verifySignature env auth data).2 with
    | none => .error (.packetDecodingError .payloadUnpack)
    | some unpacked =>
      match unpacked with
      | [dist, payload] =>
        if (verifySignature env auth data).1 then .ok (auth, dist, payload)
        else .error (.packetDecodingError .invalidSignature)
      | _ => .error .valueError

/-- The sequence of operations performed by `_ez_unpack_auth`, in program
order (deserialization of the typed payloads happens before the
signature-validity result is enforced). -/
def ezUnpackAuthTrace {PC P K F : Type} (env : Env PC P K F) (payloadClass : PC)
    (data : Bytes) : List TraceEvent :=
  match env.unpackAuth (data.drop 23) with
  | none => [.unpackAuthEv, .raiseErrorEv]
  | some (auth, _) =>
    match env.ezUnpackSerializables [env.globalTimeClass, payloadClass]
        (verifySignature env auth data).2 with
    | none => [.unpackAuthEv, .verifySignatureEv, .deserializePayloadsEv, .raiseErrorEv]
    | some unpacked =>
      match unpacked with
      | [_, _] =>
        if (verifySignature env auth data).1 then
          [.unpackAuthEv, .verifySignatureEv, .deserializePayloadsEv, .produceEv]
        else
          [.unpackAuthEv, .verifySignatureEv, .deserializePayloadsEv, .raiseErrorEv]
      | _ => [.unpackAuthEv, .verifySignatureEv, .deserializePayloadsEv, .raiseErrorEv]

/-- The return value of `_ez_unpack_noauth`: with `global_time` a list of
payload objects, without it the single decoded payload object itself. -/
inductive NoauthResult (P : Type) where
  | listResult (payloads : List P)
  | singleResult (payload : P)

/-- `EZPackOverlay._ez_unpack_noauth(payload_class, data, global_time)`:
deserialize `[GlobalTimeDistributionPayload, payload_class]` (with
`global_time`) or `[payload_class]` (without) from `data[23:]`, and return
`unpacked` resp. `unpacked[0]`. -/
def ezUnpackNoauth {PC P K F : Type} (env : Env PC P K F) (payloadClass : PC)
    (data : Bytes) (globalTime : Bool) : Except PyError (NoauthResult P) :=
  match env.ezUnpackSerializables
      (if globalTime then [env.globalTimeClass, payloadClass] else [payloadClass])
      (data.drop 23) with
  | none => .error (.packetDecodingError .payloadUnpack)
  | some unpacked =>
    if globalTime then .ok (.listResult unpacked)
    else
      match unpacked with
      | p :: _ => .ok (.singleResult p)
      | [] => .error .indexError

/-- Modelled from the spec: `cast_to_bin(chr(msg_num))` uses `cast_to_bin`
from `ipv8/util.py`, which is not among the sources; the spec's wire
envelope prescribes "the single-byte `message_id`". -/
def castToBinChr (msgNum : Nat) : Bytes := [msgNum % 256]

/-- Modelled from the spec: `borrowed_bundler.borrowed_create_signature`
(the accelerated Signature Backend's signing entry point, rust companion
code not among the sources).  Per the spec, packing "computes a signature
over the entire assembled byte string using the Signature Backend selected
by the sender's key type, and appends it", so the bundler returns the
assembled packet with the accelerated signature appended.  The trailing
`Nat` argument models the signing randomness of the scheme. -/
def borrowedCreateSignature {PC P K F : Type} (env : Env PC P K F)
    (seedBytes vkBytes packet : Bytes) (r : Nat) : Bytes :=
  packet ++ env.acceleratedSign seedBytes vkBytes packet r

/-- `EZPackOverlay._ez_pack(prefix, msg_num, format_list_list, sig)`:
concatenate the prefix, the message-number byte and each packed format
list in order; when signing, keys of exactly type `LibNaCLSK` go through
the rust bundler (with their seed and verification key), every other key
through `default_eccrypto.create_signature`, which is appended. -/
def ezPack {PC P K F : Type} (env : Env PC P K F) (myKey : SenderKey)
    (pfx : Bytes) (msgNum : Nat) (formatListList : List F) (sig : Bool)
    (r : Nat) : Bytes :=
  let packet := formatListList.foldl (fun acc fl => acc ++ env.packMultiple fl)
    (pfx ++ castToBinChr msgNum)
  if sig then
    if isExactlyLibNaCLSK myKey then
      borrowedCreateSignature env myKey.seed myKey.vk packet r
    else
      packet ++ env.createSignature myKey packet r
  else
    packet

/-- `EZPackOverlay.ezr_pack(msg_num, *payloads, sig=...)`: when signing,
the pack list of a `BinMemberAuthenticationPayload` carrying the sender's
serialized public key comes first, followed by each payload's pack list in
declared order; the result is handed to `_ez_pack`. -/
def ezrPack {PC P K F : Type} (env : Env PC P K F) (myKey : SenderKey)
    (pfx : Bytes) (msgNum : Nat) (payloads : List P) (sig : Bool)
    (r : Nat) : Bytes :=
  ezPack env myKey pfx msgNum
    ((if sig then [env.authToPackList (env.keyToBin myKey)] else []) ++
      payloads.map env.toPackList) sig r

/-- Concatenation of the serializations of a list of pack lists, in order
(the specification-side description of the payload region layout). -/
def packAll {PC P K F : Type} (env : Env PC P K F) (formatListList : List F) : Bytes :=
  formatListList.foldr (fun fl acc => env.packMultiple fl ++ acc) []

/-- The `FORMATS` registry entries of `identity_formats.py`. -/
structure IdentityFormatRec where
  algorithm : String
  key_size : Nat
  hash : String
deriving DecidableEq

/-- The fixed `FORMATS` registry. -/
def FORMATS : List (String × IdentityFormatRec) :=
  [("id_metadata", ⟨"bonehexact", 32, "sha256_4"⟩),
   ("id_metadata_big", ⟨"bonehexact", 64, "sha256"⟩),
   ("id_metadata_huge", ⟨"bonehexact", 96, "sha512"⟩)]

/-- The key set of the `FORMATS` registry (Python `id_format in FORMATS`). -/
def formatNames : List String := FORMATS.map Prod.fst

/-- The state of a successfully constructed `IdentityAlgorithm` instance:
its `id_format` field. -/
structure IdentityAlgorithmState where
  id_format : String
deriving DecidableEq

/-- `IdentityAlgorithm.__init__(id_format)`: sets `self.id_format` and
raises `RuntimeError` when `id_format` is not a key of `FORMATS`; on a
registered name construction succeeds with the field set to that name. -/
def identityAlgorithmInit (idFormat : String) : Except String IdentityAlgorithmState :=
  if formatNames.contains idFormat then .ok ⟨idFormat⟩
  else .error "Tried to initialize with illegal identity format"

/-- Python exception classes raised by the abstract attestation layer. -/
inductive PyExc where
  | notImplementedError
deriving DecidableEq

/-- `Attestation.unserialize(s, id_format)` on the abstract base class:
raises `NotImplementedError()` unconditionally.  `A` is the (never
produced) result type of the concrete override. -/
def attestationUnserialize (A : Type) (s idFormat : String) : Except PyExc A :=
  .error .notImplementedError

/-- A concrete environment over `Nat` instantiations in which every
signature verifies: the auth header always parses to the key `[1, 2]`, the
serializer returns one payload per requested class, and signatures are one
byte of the signing randomness. -/
def cEnvValid : Env Nat Nat Nat Nat :=
  ⟨99,
   fun _ => some (⟨[1, 2]⟩, []),
   fun pcs _ => some pcs,
   fun _ d => (true, d),
   fun _ => 0,
   fun _ => 4,
   fun _ _ _ => true,
   fun f => [f],
   fun p => p,
   fun _ => 7,
   fun _ => [9],
   fun _ _ r => [r % 256],
   fun _ _ _ r => [r % 256]⟩

/-- As `cEnvValid`, but the default backend rejects every signature. -/
def cEnvInvalid : Env Nat Nat Nat Nat :=
  ⟨99,
   fun _ => some (⟨[1, 2]⟩, []),
   fun pcs _ => some pcs,
   fun _ d => (true, d),
   fun _ => 0,
   fun _ => 4,
   fun _ _ _ => false,
   fun f => [f],
   fun p => p,
   fun _ => 7,
   fun _ => [9],
   fun _ _ r => [r % 256],
   fun _ _ _ r => [r % 256]⟩

/-- The auth header produced by the concrete environments. -/
def cAuth : AuthHeader := ⟨[1, 2]⟩

/-- A concrete packet body for the concrete environments. -/
def cData : Bytes := List.replicate 40 0

/-- A concrete source address. -/
def cAddr : Address := ("1.2.3.4", 8000)

/-- An auth header whose public key carries the `LibNaCLPK:` marker. -/
def cAuthAcc : AuthHeader := ⟨libNaCLMarker ++ [1]⟩

/-- Concatenating pack lists with a left fold from a base byte string is the
base followed by the concatenation of all serializations. -/
theorem foldl_pack_eq {PC P K F : Type} (env : Env PC P K F) :
    ∀ (fll : List F) (base : Bytes),
      fll.foldl (fun acc fl => acc ++ env.packMultiple fl) base = base ++ packAll env fll := by
  intro fll
  induction fll with
  | nil => intro base; simp [packAll]
  | cons fl t ih =>
    intro base
    have h : packAll env (fl :: t) = env.packMultiple fl ++ packAll env t := rfl
    rw [List.foldl_cons, ih, h, List.append_assoc]

/-- C3: `_verify_signature` selects the verifying backend exhaustively and
exclusively by the marker test on `public_key_bin`: the accelerated (rust)
verifier runs if and only if the key starts with the `LibNaCLPK:` bytes,
and in every other case the default backend branch runs; no auth header
falls through both or neither branch. -/
theorem verify_backend_dispatch {PC P K F : Type} (env : Env PC P K F)
    (auth : AuthHeader) (data : Bytes) :
    (verifyBackendChoice auth = .accelerated ↔
      auth.public_key_bin.take libNaCLMarker.length = libNaCLMarker) ∧
    (verifyBackendChoice auth = .default ↔
      ¬ auth.public_key_bin.take libNaCLMarker.length = libNaCLMarker) ∧
    (verifyBackendChoice auth = .accelerated →
      verifySignature env auth data = env.borrowedVerify auth.public_key_bin data) ∧
    (verifyBackendChoice auth = .default →
      verifySignature env auth data = defaultVerify env auth data) ∧
    (verifyBackendChoice auth = .accelerated ∨ verifyBackendChoice auth = .default) ∧
    ¬ (verifyBackendChoice auth = .accelerated ∧ verifyBackendChoice auth = .default) := by
  unfold verifyBackendChoice verifySignature bytesStartsWith
  by_cases h : auth.public_key_bin.take libNaCLMarker.length = libNaCLMarker
  · simp [h]
  · simp [h]

/-- Witness for C3 at a concrete marker-carrying auth header. -/
theorem verify_backend_dispatch_witness :
    verifyBackendChoice cAuthAcc = .accelerated ∧
    verifySignature cEnvValid cAuthAcc cData =
      cEnvValid.borrowedVerify cAuthAcc.public_key_bin cData :=
  ⟨(verify_backend_dispatch cEnvValid cAuthAcc cData).1.mpr (by decide),
   (verify_backend_dispatch cEnvValid cAuthAcc cData).2.2.1
     ((verify_backend_dispatch cEnvValid cAuthAcc cData).1.mpr (by decide))⟩

/-- C4: in the default-backend branch of `_verify_signature`, the returned
remainder is the byte slice of `data` starting at offset
`23 + 2 + len(public_key_bin)` and ending `signature_length` bytes before
the end of `data`, with `signature_length` obtained from the backend for
that public key (the backend's signature lengths are positive). -/
theorem default_verify_remainder_slice {PC P K F : Type} (env : Env PC P K F)
    (auth : AuthHeader) (data : Bytes)
    (hmark : bytesStartsWith auth.public_key_bin libNaCLMarker = false)
    (hlen : 1 ≤ env.getSignatureLength (env.keyFromPublicBin auth.public_key_bin)) :
    (verifySignature env auth data).2 =
      (data.take (data.length -
          env.getSignatureLength (env.keyFromPublicBin auth.public_key_bin))).drop
        (23 + 2 + auth.public_key_bin.length) := by
  have hne : env.getSignatureLength (env.keyFromPublicBin auth.public_key_bin) ≠ 0 := by omega
  simp [verifySignature, hmark, defaultVerify, sliceToNegEnd, hne]

/-- Witness for C4 at a concrete unmarked key and packet. -/
theorem default_verify_remainder_slice_witness :
    bytesStartsWith cAuth.public_key_bin libNaCLMarker = false ∧
    (verifySignature cEnvValid cAuth cData).2 =
      (cData.take (cData.length -
          cEnvValid.getSignatureLength (cEnvValid.keyFromPublicBin cAuth.public_key_bin))).drop
        (23 + 2 + cAuth.public_key_bin.length) :=
  ⟨by decide, default_verify_remainder_slice cEnvValid cAuth cData (by decide) (by decide)⟩

/-- C6: constructing an `IdentityAlgorithm` with a name outside the
`FORMATS` registry raises; construction with any of the three registered
names succeeds and the constructed instance's `id_format` field equals the
given name. -/
theorem identity_algorithm_init_formats :
    (∀ s : String, formatNames.contains s = false →
      identityAlgorithmInit s = .error "Tried to initialize with illegal identity format") ∧
    (∀ s : String, formatNames.contains s = true →
      identityAlgorithmInit s = .ok ⟨s⟩) ∧
    formatNames = ["id_metadata", "id_metadata_big", "id_metadata_huge"] ∧
    identityAlgorithmInit "id_metadata" = .ok ⟨"id_metadata"⟩ ∧
    identityAlgorithmInit "id_metadata_big" = .ok ⟨"id_metadata_big"⟩ ∧
    identityAlgorithmInit "id_metadata_huge" = .ok ⟨"id_metadata_huge"⟩ := by
  refine ⟨?_, ?_, by rfl, by rfl, by rfl, by rfl⟩
  · intro s h
    have h2 : ¬ s ∈ formatNames := by simpa using h
    simp [identityAlgorithmInit, h2]
  · intro s h
    have h2 : s ∈ formatNames := by simpa using h
    simp [identityAlgorithmInit, h2]

/-- Witness for C6 at an unregistered and a registered format name. -/
theorem identity_algorithm_init_formats_witness :
    formatNames.contains "unknown_format" = false ∧
    identityAlgorithmInit "unknown_format" =
      .error "Tried to initialize with illegal identity format" ∧
    formatNames.contains "id_metadata" = true ∧
    identityAlgorithmInit "id_metadata" = .ok ⟨"id_metadata"⟩ :=
  ⟨by decide, identity_algorithm_init_formats.1 "unknown_format" (by decide),
   by decide, identity_algorithm_init_formats.2.1 "id_metadata" (by decide)⟩

/-- C7: the abstract `Attestation.unserialize` raises a
`NotImplementedError` for every input, unconditionally and without
inspecting its arguments. -/
theorem attestation_unserialize_raises :
    (∀ (A : Type) (s idFormat : String),
      attestationUnserialize A s idFormat = .error .notImplementedError) ∧
    (∀ (A : Type) (s1 f1 s2 f2 : String),
      attestationUnserialize A s1 f1 = attestationUnserialize A s2 f2) :=
  ⟨fun _ _ _ => rfl, fun _ _ _ _ _ => rfl⟩

/-- C10: the return shape of `_ez_unpack_noauth` depends on `global_time`:
with it, the deserialized list `[global_time_payload, payload]` for format
`[GlobalTimeDistributionPayload, payload_class]`; without it, the single
decoded payload itself, which is not a one-element list. -/
theorem ez_unpack_noauth_shape {PC P K F : Type} (env : Env PC P K F)
    (payloadClass : PC) (data : Bytes) :
    (∀ ps : List P,
      env.ezUnpackSerializables [env.globalTimeClass, payloadClass] (data.drop 23) = some ps →
        ezUnpackNoauth env payloadClass data true = .ok (.listResult ps)) ∧
    (∀ (p : P) (rest : List P),
      env.ezUnpackSerializables [payloadClass] (data.drop 23) = some (p :: rest) →
        ezUnpackNoauth env payloadClass data false = .ok (.singleResult p)) ∧
    (∀ p : P, (NoauthResult.singleResult p : NoauthResult P) ≠ .listResult [p]) := by
  refine ⟨?_, ?_, ?_⟩
  · intro ps h; simp [ezUnpackNoauth, h]
  · intro p rest h; simp [ezUnpackNoauth, h]
  · intro p h; cases h

/-- Witness for C10 on a concrete environment and packet. -/
theorem ez_unpack_noauth_shape_witness :
    ezUnpackNoauth cEnvValid 5 cData true = .ok (.listResult [99, 5]) ∧
    ezUnpackNoauth cEnvValid 5 cData false = .ok (.singleResult 5) :=
  ⟨(ez_unpack_noauth_shape cEnvValid 5 cData).1 [99, 5] rfl,
   (ez_unpack_noauth_shape cEnvValid 5 cData).2.1 5 [] rfl⟩

/-- C1: for the authenticated lazy dispatch wrappers applied to
`(source_address, data)` with a parsed auth header: if the signature check
fails, both wrappers raise a `PacketDecodingError` and the handler is
invoked zero times; if the check succeeds and the payloads deserialize,
the handler is invoked exactly once (the unique `.ok` call record, trace
count one) with a `Peer` built from `auth.public_key_bin` and the source
address, followed by the decoded payloads in order — and for the
raw-passthrough variant the original data as the final argument. -/
theorem lazy_wrapper_auth_dispatch {PC P K F : Type} (env : Env PC P K F)
    (payloads : List PC) (sa : Address) (data : Bytes) (auth : AuthHeader)
    (rem0 : Bytes) (hauth : env.unpackAuth (data.drop 23) = some (auth, rem0)) :
    ((verifySignature env auth data).1 = false →
      (∃ st, lazyWrapper env payloads sa data = .error (.packetDecodingError st)) ∧
      (∃ st, lazyWrapperWd env payloads sa data = .error (.packetDecodingError st)) ∧
      (wrapperTrace env payloads data).count .invokeHandlerEv = 0) ∧
    ((verifySignature env auth data).1 = true →
      ∀ ps : List P,
        env.ezUnpackSerializables payloads (verifySignature env auth data).2 = some ps →
          lazyWrapper env payloads sa data = .ok ⟨⟨auth.public_key_bin, sa⟩, ps⟩ ∧
          lazyWrapperWd env payloads sa data = .ok ⟨⟨auth.public_key_bin, sa⟩, ps, data⟩ ∧
          (wrapperTrace env payloads data).count .invokeHandlerEv = 1) := by
  constructor
  · intro hf
    cases hu : env.ezUnpackSerializables payloads (verifySignature env auth data).2 with
    | none =>
      refine ⟨⟨.payloadUnpack, ?_⟩, ⟨.payloadUnpack, ?_⟩, ?_⟩
      · simp [lazyWrapper, hauth, hu]
      · simp [lazyWrapperWd, hauth, hu]
      · simp [wrapperTrace, hauth, hu]
    | some ps =>
      refine ⟨⟨.invalidSignature, ?_⟩, ⟨.invalidSignature, ?_⟩, ?_⟩
      · simp [lazyWrapper, hauth, hu, hf]
      · simp [lazyWrapperWd, hauth, hu, hf]
      · simp [wrapperTrace, hauth, hu, hf]
  · intro ht ps hps
    refine ⟨?_, ?_, ?_⟩
    · simp [lazyWrapper, hauth, hps, ht]
    · simp [lazyWrapperWd, hauth, hps, ht]
    · simp [wrapperTrace, hauth, hps, ht]

/-- Witness for C1 on a concrete validly-signed packet. -/
theorem lazy_wrapper_auth_dispatch_witness :
    (verifySignature cEnvValid cAuth cData).1 = true ∧
    lazyWrapper cEnvValid [5] cAddr cData = .ok ⟨⟨[1, 2], cAddr⟩, [5]⟩ ∧
    lazyWrapperWd cEnvValid [5] cAddr cData = .ok ⟨⟨[1, 2], cAddr⟩, [5], cData⟩ ∧
    (wrapperTrace cEnvValid [5] cData).count .invokeHandlerEv = 1 :=
  ⟨rfl,
   ((lazy_wrapper_auth_dispatch cEnvValid [5] cAddr cData cAuth [] rfl).2 rfl [5] rfl).1,
   ((lazy_wrapper_auth_dispatch cEnvValid [5] cAddr cData cAuth [] rfl).2 rfl [5] rfl).2.1,
   ((lazy_wrapper_auth_dispatch cEnvValid [5] cAddr cData cAuth [] rfl).2 rfl [5] rfl).2.2⟩

/-- Counterexample to C2 at a concrete input: on a packet whose signature
is invalid, the operation trace of the wrapper (and of `_ez_unpack_auth`)
contains the `ez_unpack_serializables` payload-deserialization step
strictly before the raise of the error — typed payload objects are
constructed from the packet bytes although the signature check did not
succeed. -/
theorem payload_decode_before_check_counterexample :
    (verifySignature cEnvInvalid cAuth cData).1 = false ∧
    wrapperTrace cEnvInvalid [5] cData =
      [.unpackAuthEv, .verifySignatureEv, .deserializePayloadsEv, .raiseErrorEv] ∧
    ezUnpackAuthTrace cEnvInvalid 5 cData =
      [.unpackAuthEv, .verifySignatureEv, .deserializePayloadsEv, .raiseErrorEv] ∧
    List.indexOf .deserializePayloadsEv (wrapperTrace cEnvInvalid [5] cData) <
      List.indexOf .raiseErrorEv (wrapperTrace cEnvInvalid [5] cData) := by
  refine ⟨rfl, rfl, rfl, by decide⟩

/-- C2 amended: in `lazy_wrapper` and `_ez_unpack_auth`, payload
deserialization runs after the signature check has been computed but
before its outcome is enforced; on an invalid signature the typed payloads
are deserialized and then the `PacketDecodingError` is raised, so neither
the handler nor the caller ever observes them. -/
theorem payload_decode_enforcement_order {PC P K F : Type} (env : Env PC P K F)
    (payloads : List PC) (payloadClass : PC) (sa : Address) (data : Bytes)
    (auth : AuthHeader) (rem0 : Bytes)
    (hauth : env.unpackAuth (data.drop 23) = some (auth, rem0))
    (hsig : (verifySignature env auth data).1 = false) :
    wrapperTrace env payloads data =
      [.unpackAuthEv, .verifySignatureEv, .deserializePayloadsEv, .raiseErrorEv] ∧
    ezUnpackAuthTrace env payloadClass data =
      [.unpackAuthEv, .verifySignatureEv, .deserializePayloadsEv, .raiseErrorEv] ∧
    (∃ st, lazyWrapper env payloads sa data = .error (.packetDecodingError st)) ∧
    (∀ out, ezUnpackAuth env payloadClass data ≠ .ok out) ∧
    (wrapperTrace env payloads data).count .invokeHandlerEv = 0 := by
  have hw : wrapperTrace env payloads data =
      [.unpackAuthEv, .verifySignatureEv, .deserializePayloadsEv, .raiseErrorEv] := by
    cases hu : env.ezUnpackSerializables payloads (verifySignature env auth data).2 with
    | none => simp [wrapperTrace, hauth, hu]
    | some ps => simp [wrapperTrace, hauth, hu, hsig]
  have ha : ezUnpackAuthTrace env payloadClass data =
      [.unpackAuthEv, .verifySignatureEv, .deserializePayloadsEv, .raiseErrorEv] := by
    cases hu : env.ezUnpackSerializables [env.globalTimeClass, payloadClass]
        (verifySignature env auth data).2 with
    | none => simp [ezUnpackAuthTrace, hauth, hu]
    | some ps =>
      rcases ps with _ | ⟨a, _ | ⟨b, _ | ⟨c, t⟩⟩⟩ <;>
        simp [ezUnpackAuthTrace, hauth, hu, hsig]
  have hl : ∃ st, lazyWrapper env payloads sa data = .error (.packetDecodingError st) := by
    cases hu : env.ezUnpackSerializables payloads (verifySignature env auth data).2 with
    | none => exact ⟨.payloadUnpack, by simp [lazyWrapper, hauth, hu]⟩
    | some ps => exact ⟨.invalidSignature, by simp [lazyWrapper, hauth, hu, hsig]⟩
  have hn : ∀ out, ezUnpackAuth env payloadClass data ≠ .ok out := by
    intro out
    cases hu : env.ezUnpackSerializables [env.globalTimeClass, payloadClass]
        (verifySignature env auth data).2 with
    | none => simp [ezUnpackAuth, hauth, hu]
    | some ps =>
      rcases ps with _ | ⟨a, _ | ⟨b, _ | ⟨c, t⟩⟩⟩ <;>
        simp [ezUnpackAuth, hauth, hu, hsig]
  exact ⟨hw, ha, hl, hn, by rw [hw]; decide⟩

/-- Witness for C2's amended statement on a concrete invalid-signature
packet. -/
theorem payload_decode_enforcement_order_witness :
    (verifySignature cEnvInvalid cAuth cData).1 = false ∧
    (wrapperTrace cEnvInvalid [5] cData).count .invokeHandlerEv = 0 :=
  ⟨rfl,
   (payload_decode_enforcement_order cEnvInvalid [5] 5 cAddr cData cAuth [] rfl rfl).2.2.2.2⟩

/-- C5: `ezr_pack`/`_ez_pack` produce the concatenation of the prefix, the
message-number byte, then (when signing) the serialized auth-header group
first, then each payload group's serialization in declared order; when
signing, the result ends with a signature over the entire assembled byte
string, computed by the backend selected from the sender's key type and
appended after the assembled bytes. -/
theorem ezr_pack_layout {PC P K F : Type} (env : Env PC P K F) (key : SenderKey)
    (pfx : Bytes) (msgNum : Nat) (payloads : List P) (r : Nat) :
    ezrPack env key pfx msgNum payloads false r =
      pfx ++ castToBinChr msgNum ++ packAll env (payloads.map env.toPackList) ∧
    ezrPack env key pfx msgNum payloads true r =
      (pfx ++ castToBinChr msgNum ++
          env.packMultiple (env.authToPackList (env.keyToBin key)) ++
          packAll env (payloads.map env.toPackList)) ++
        (if isExactlyLibNaCLSK key then
          env.acceleratedSign key.seed key.vk
            (pfx ++ castToBinChr msgNum ++
              env.packMultiple (env.authToPackList (env.keyToBin key)) ++
              packAll env (payloads.map env.toPackList)) r
        else
          env.createSignature key
            (pfx ++ castToBinChr msgNum ++
              env.packMultiple (env.authToPackList (env.keyToBin key)) ++
              packAll env (payloads.map env.toPackList)) r) := by
  have hb := foldl_pack_eq env (payloads.map env.toPackList) (pfx ++ castToBinChr msgNum)
  have hb2 := foldl_pack_eq env
    (env.authToPackList (env.keyToBin key) :: payloads.map env.toPackList)
    (pfx ++ castToBinChr msgNum)
  have hpa : packAll env (env.authToPackList (env.keyToBin key) :: payloads.map env.toPackList) =
      env.packMultiple (env.authToPackList (env.keyToBin key)) ++
        packAll env (payloads.map env.toPackList) := rfl
  constructor
  · simp [ezrPack, ezPack, hb, List.append_assoc]
  · cases hk : isExactlyLibNaCLSK key <;>
      simp [ezrPack, ezPack, borrowedCreateSignature, hk, hb2, hpa, List.append_assoc]

/-- C8: packing is deterministic — the unsigned output is independent of
the signing randomness (identical inputs give identical bytes), and the
two signed outputs for the same inputs differ only in the signature bytes
appended after the shared assembled byte string. -/
theorem ez_pack_deterministic {PC P K F : Type} (env : Env PC P K F)
    (key : SenderKey) (pfx : Bytes) (msgNum : Nat) (formatListList : List F)
    (r1 r2 : Nat) :
    ezPack env key pfx msgNum formatListList false r1 =
      ezPack env key pfx msgNum formatListList false r2 ∧
    (∃ s1 s2 : Bytes,
      ezPack env key pfx msgNum formatListList true r1 =
        ezPack env key pfx msgNum formatListList false r1 ++ s1 ∧
      ezPack env key pfx msgNum formatListList true r2 =
        ezPack env key pfx msgNum formatListList false r1 ++ s2) := by
  constructor
  · rfl
  · cases hk : isExactlyLibNaCLSK key with
    | false =>
      refine ⟨env.createSignature key (ezPack env key pfx msgNum formatListList false r1) r1,
        env.createSignature key (ezPack env key pfx msgNum formatListList false r1) r2, ?_, ?_⟩
      · simp [ezPack, hk]
      · simp [ezPack, hk]
    | true =>
      refine ⟨env.acceleratedSign key.seed key.vk
          (ezPack env key pfx msgNum formatListList false r1) r1,
        env.acceleratedSign key.seed key.vk
          (ezPack env key pfx msgNum formatListList false r1) r2, ?_, ?_⟩
      · simp [ezPack, borrowedCreateSignature, hk]
      · simp [ezPack, borrowedCreateSignature, hk]

/-- C9: sender-side backend selection in `_ez_pack` is by exact type
equality: keys of a proper subclass of `LibNaCLSK`, and any other
non-`LibNaCLSK` key, are signed by appending
`default_eccrypto.create_signature`, and only keys of exactly type
`LibNaCLSK` go through the accelerated (rust bundler) signing path. -/
theorem sign_backend_exact_type {PC P K F : Type} (env : Env PC P K F)
    (pfx : Bytes) (msgNum : Nat) (formatListList : List F) (r : Nat) :
    (∀ key : SenderKey, isExactlyLibNaCLSK key = false →
      ezPack env key pfx msgNum formatListList true r =
        ezPack env key pfx msgNum formatListList false r ++
          env.createSignature key (ezPack env key pfx msgNum formatListList false r) r) ∧
    (∀ seedBytes vkBytes : Bytes,
      isExactlyLibNaCLSK (.libNaCLSKSub seedBytes vkBytes) = false) ∧
    (∀ bin : Bytes, isExactlyLibNaCLSK (.other bin) = false) ∧
    (∀ seedBytes vkBytes : Bytes,
      ezPack env (.libNaCLSK seedBytes vkBytes) pfx msgNum formatListList true r =
        borrowedCreateSignature env seedBytes vkBytes
          (ezPack env (.libNaCLSK seedBytes vkBytes) pfx msgNum formatListList false r) r) := by
  refine ⟨?_, fun _ _ => rfl, fun _ => rfl, ?_⟩
  · intro key hk; simp [ezPack, hk]
  · intro s v; simp [ezPack, isExactlyLibNaCLSK, SenderKey.seed, SenderKey.vk]

/-- Witness for C9 at a concrete subclass key. -/
theorem sign_backend_exact_type_witness :
    isExactlyLibNaCLSK (SenderKey.libNaCLSKSub [1] [2]) = false ∧
    ezPack cEnvValid (.libNaCLSKSub [1] [2]) [3] 4 [5] true 6 =
      ezPack cEnvValid (.libNaCLSKSub [1] [2]) [3] 4 [5] false 6 ++
        cEnvValid.createSignature (.libNaCLSKSub [1] [2])
          (ezPack cEnvValid (.libNaCLSKSub [1] [2]) [3] 4 [5] false 6) 6 :=
  ⟨(sign_backend_exact_type cEnvValid [3] 4 [5] 6).2.1 [1] [2],
   (sign_backend_exact_type cEnvValid [3] 4 [5] 6).1 (.libNaCLSKSub [1] [2]) rfl⟩

end IPv8
